import Mathlib

/-!
Shallow embedding of the window-state keeper in madosuki/electron-window-state
(src/index.js, src/src/index.ts, src/unnamed/part_000).

Numbers are modelled as Int (the code only ever stores and compares screen
coordinates); the raw, pre-validation record uses Rat so that the integrality
check of hasBounds is expressible.  Fields that JavaScript may leave
undefined are Option-valued, and JavaScript comparison semantics on
undefined (every relational comparison with undefined is false) are encoded
at each use site, following the source expression by expression.
-/

/-- DisplayBounds from src/src/index.ts lines 13-18: a rectangle in global
screen coordinates; also used for the rectangles returned by win.getBounds
and screen.getDisplayMatching. -/
structure DisplayBounds where
  width : Int
  height : Int
  x : Int
  y : Int
deriving DecidableEq

/-- WindowBounds from src/src/index.ts lines 6-11: width and height are
always numbers, x and y may be undefined. -/
structure WindowBounds where
  width : Int
  height : Int
  x : Option Int
  y : Option Int
deriving DecidableEq

/-- State from src/src/index.ts lines 29-34, with the flags Option-valued
because src/index.js builds state objects that omit them (resetStateToDefault,
lines 35-46, and records loaded from JSON). -/
structure WinState where
  windowBounds : WindowBounds
  displayBounds : DisplayBounds
  isMaximized : Option Bool
  isFullScreen : Option Bool
deriving DecidableEq

/-- An attached display as consumed by resizeAndReplaceWindowForWorkArea:
its full bounds and its work area. -/
structure Display where
  bounds : DisplayBounds
  workArea : DisplayBounds
deriving DecidableEq

/-- The two geometry options of the configuration object
(src/index.js lines 15-20); both may be absent. -/
structure Config where
  defaultWidth : Option Int
  defaultHeight : Option Int
deriving DecidableEq

/-- JavaScript truthiness of a possibly-undefined boolean:
undefined is falsy. -/
def jsTruthy : Option Bool → Bool
  | some b => b
  | none => false

/-- JavaScript a-or-else-b on a possibly-undefined number, as in
config.defaultWidth or-else 800 (src/index.js line 40): undefined and 0 are
falsy, every other integer is truthy. -/
def jsOrDefault : Option Int → Int → Int
  | some v, d => if v = 0 then d else v
  | none, d => d

/-- windowWithinBounds from src/index.js lines 48-55.  The source compares
state.x and state.y directly; in JavaScript every relational comparison
against undefined is false, so an unset coordinate makes the conjunction
false. -/
def windowWithinBounds (s : WinState) (bounds : DisplayBounds) : Bool :=
  match s.windowBounds.x, s.windowBounds.y with
  | some xv, some yv =>
    decide (bounds.x ≤ xv) && decide (bounds.y ≤ yv) &&
    decide (xv + s.windowBounds.width ≤ bounds.x + bounds.width) &&
    decide (yv + s.windowBounds.height ≤ bounds.y + bounds.height)
  | _, _ => false

/-- windowWithinBounds from src/src/index.ts lines 151-164.  That variant
first computes stateX and stateY as the coordinate or-else 0; on integers
that equals Option.getD 0, since the JavaScript or-else maps both undefined
and 0 to 0. -/
def windowWithinBoundsTs (wb : WindowBounds) (bounds : DisplayBounds) : Bool :=
  let stateX := wb.x.getD 0
  let stateY := wb.y.getD 0
  decide (bounds.x ≤ stateX) && decide (bounds.y ≤ stateY) &&
  decide (stateX + wb.width ≤ bounds.x + bounds.width) &&
  decide (stateY + wb.height ≤ bounds.y + bounds.height)

/-- resizeAndReplaceWindowForWorkArea from src/index.js lines 58-90.
The source mutates state field by field in order: width clamp, height clamp,
left snap, right snap (reading the possibly already snapped x), top snap,
bottom snap (reading the possibly already snapped y).  When x or y is
undefined none of the corresponding conditions hold in JavaScript
(comparisons with undefined and with NaN are false), so the coordinate stays
undefined. -/
def resizeAndReplaceWindowForWorkArea (display : Display) (s : WinState) : WinState :=
  if jsTruthy s.isFullScreen || jsTruthy s.isMaximized then s
  else
    let wa := display.workArea
    let w1 := if wa.width < s.windowBounds.width then wa.width else s.windowBounds.width
    let h1 := if wa.height < s.windowBounds.height then wa.height else s.windowBounds.height
    let x1 := match s.windowBounds.x with
      | none => none
      | some xv =>
        let xa := if xv < wa.x then wa.x else xv
        some (if wa.width < xa + w1 then wa.x + wa.width - w1 else xa)
    let y1 := match s.windowBounds.y with
      | none => none
      | some yv =>
        let ya := if yv < display.bounds.height - wa.height then wa.y else yv
        some (if wa.height < ya + h1 then wa.y + wa.height - h1 else ya)
    { s with windowBounds := { width := w1, height := h1, x := x1, y := y1 } }

/-- resetStateToDefault from src/index.js lines 35-46: the state object is
replaced wholesale by one that carries only the default size, unset
position and the primary display bounds; the isMaximized and isFullScreen
fields are not part of the new object, hence none. -/
def resetStateToDefault (config : Config) (primaryBounds : DisplayBounds) : WinState :=
  { windowBounds :=
      { width := jsOrDefault config.defaultWidth 800
        height := jsOrDefault config.defaultHeight 600
        x := none
        y := none }
    displayBounds := primaryBounds
    isMaximized := none
    isFullScreen := none }

/-- ensureWindowVisibleOnSomeDisplay from src/index.js lines 92-102:
find the first display whose bounds contain the window, reset to defaults
when there is none, otherwise clamp to that display's work area.  The
display list and the primary display bounds stand for the screen
collaborator. -/
def ensureWindowVisibleOnSomeDisplay (config : Config) (displays : List Display)
(primaryBounds : DisplayBounds) (s : WinState) : WinState :=
  match displays.find? (fun v => windowWithinBounds s v.bounds) with
  | none => resetStateToDefault config primaryBounds
  | some display => resizeAndReplaceWindowForWorkArea display s

/-- A raw, just-loaded bounds record before validation: every field may be
absent and may be non-integral, which Rat can express.  hasBounds reads
exactly these four fields of the loaded state. -/
structure RawBounds where
  x : Option ℚ
  y : Option ℚ
  width : Option ℚ
  height : Option ℚ
deriving DecidableEq

/-- Number.isInteger on a possibly-undefined number: false on undefined,
and on a rational true exactly when the denominator is 1. -/
def isIntegerNum : Option ℚ → Bool
  | some v => v.den == 1
  | none => false

/-- hasBounds from src/index.js lines 27-33: all four fields integral, and
width and height positive (a comparison with undefined is false, matching
getD 0 here since the field was already known integral). -/
def hasBounds (b : RawBounds) : Bool :=
  isIntegerNum b.x && isIntegerNum b.y &&
  (isIntegerNum b.width && decide (0 < b.width.getD 0)) &&
  (isIntegerNum b.height && decide (0 < b.height.getD 0))

/-- One call of updateState sees the managed window through these queries;
each is Option-valued because any of the underlying host calls can throw
(the window may be destroyed), which the source catches around the whole
block (src/index.js lines 122-133). -/
structure WinQueries where
  getBounds : Option DisplayBounds
  isMaximized : Option Bool
  isMinimized : Option Bool
  isFullScreen : Option Bool
  matchingDisplayBounds : Option DisplayBounds
deriving DecidableEq

/-- isNormal from src/index.js lines 23-25, evaluated with JavaScript
short-circuiting: none propagates a thrown query, and a query after a
short-circuit is never consulted. -/
def isNormalQ (w : WinQueries) : Option Bool :=
  match w.isMaximized with
  | none => none
  | some true => some false
  | some false =>
    match w.isMinimized with
    | none => none
    | some true => some false
    | some false =>
      match w.isFullScreen with
      | none => none
      | some f => some (!f)

/-- updateState from src/index.js lines 116-134.  The try block runs query
by query; a none result models the query throwing, which jumps to the empty
catch, keeping every mutation already performed and skipping the rest. -/
def updateState (w : WinQueries) (s : WinState) : WinState :=
  match w.getBounds with
  | none => s
  | some winBounds =>
    match isNormalQ w with
    | none => s
    | some normal =>
      let s1 := if normal then
          { s with windowBounds :=
              { width := winBounds.width, height := winBounds.height,
                x := some winBounds.x, y := some winBounds.y } }
        else s
      match w.isMaximized with
      | none => s1
      | some m =>
        let s2 := { s1 with isMaximized := some m }
        match w.isFullScreen with
        | none => s2
        | some f =>
          let s3 := { s2 with isFullScreen := some f }
          match w.matchingDisplayBounds with
          | none => s3
          | some db => { s3 with displayBounds := db }

/-- checkUpdatedStateCompareToReadedData from src/src/index.ts lines
274-316: true when nothing was loaded, otherwise true when the display
bounds differ or when the window bounds or either flag differ.  (The inner
null guards of the source cannot fire here because both records are given;
src/index.js line 164 instead calls the coordinate check twice and never
the display check.) -/
def checkUpdatedStateCompareToReadedData (state : WinState) (readedData : Option WinState) : Bool :=
  match readedData with
  | none => true
  | some rd =>
    let updatedDisplayBounds :=
      rd.displayBounds.x != state.displayBounds.x ||
      rd.displayBounds.y != state.displayBounds.y ||
      rd.displayBounds.width != state.displayBounds.width ||
      rd.displayBounds.height != state.displayBounds.height
    let updatedCoordAndSize :=
      rd.windowBounds.x != state.windowBounds.x ||
      rd.windowBounds.y != state.windowBounds.y ||
      rd.windowBounds.width != state.windowBounds.width ||
      rd.windowBounds.height != state.windowBounds.height ||
      rd.isMaximized != state.isMaximized ||
      rd.isFullScreen != state.isFullScreen
    updatedDisplayBounds || updatedCoordAndSize

/-- The mutable cell structure saveState interacts with: the live state,
the record loaded at construction (readedData, never reassigned afterwards
anywhere in the source), and the sequence of records written to storage. -/
structure SaveEnv where
  state : WinState
  readedData : Option WinState
  written : List WinState
deriving DecidableEq

/-- saveState from src/src/index.ts lines 338-361 on the path without a
window argument: compare against readedData, return without writing when
nothing changed, otherwise write the current state.  No assignment to
readedData occurs. -/
def saveState (e : SaveEnv) : SaveEnv :=
  if checkUpdatedStateCompareToReadedData e.state e.readedData then
    { e with written := e.state :: e.written }
  else e

/-- Concrete record used by several witnesses: a normal window at 10,20
sized 800 by 600 on a 1920 by 1080 display. -/
def stateA : WinState :=
  { windowBounds := { width := 800, height := 600, x := some 10, y := some 20 },
    displayBounds := { width := 1920, height := 1080, x := 0, y := 0 },
    isMaximized := some false, isFullScreen := some false }

/-- stateA after a resize to 640 by 480. -/
def stateB : WinState :=
  { stateA with windowBounds := { width := 640, height := 480, x := some 10, y := some 20 } }

/-- Save environment whose live state differs from the loaded record. -/
def envAB : SaveEnv := { state := stateB, readedData := some stateA, written := [] }

/-- Configuration with explicit default size 1000 by 700. -/
def cfgOne : Config := { defaultWidth := some 1000, defaultHeight := some 700 }

/-- A plain 1920 by 1080 display at the origin with no taskbar. -/
def displayOne : Display :=
  { bounds := { width := 1920, height := 1080, x := 0, y := 0 },
    workArea := { width := 1920, height := 1080, x := 0, y := 0 } }

/-- A maximized window parked far outside displayOne. -/
def farState : WinState :=
  { windowBounds := { width := 800, height := 600, x := some 3000, y := some 3000 },
    displayBounds := { width := 1920, height := 1080, x := 0, y := 0 },
    isMaximized := some true, isFullScreen := some true }

/-- A display whose work area is the lower third of its bounds, as with a
large reserved strip: bounds 100 by 300, work area 100 by 100 at the
origin. -/
def tallDisplay : Display :=
  { bounds := { width := 100, height := 300, x := 0, y := 0 },
    workArea := { width := 100, height := 100, x := 0, y := 0 } }

/-- A 50 by 50 window at y = 200, inside tallDisplay's bounds but below its
work area. -/
def midState : WinState :=
  { windowBounds := { width := 50, height := 50, x := some 0, y := some 200 },
    displayBounds := { width := 100, height := 300, x := 0, y := 0 },
    isMaximized := some false, isFullScreen := some false }

/-- A display positioned above the primary one: its rectangle has y = -1080. -/
def belowDisplay : Display :=
  { bounds := { width := 1920, height := 1080, x := 0, y := -1080 },
    workArea := { width := 1920, height := 1080, x := 0, y := -1080 } }

/-- A normal window at the origin, below belowDisplay's rectangle. -/
def originState : WinState :=
  { windowBounds := { width := 800, height := 600, x := some 0, y := some 0 },
    displayBounds := { width := 1920, height := 1080, x := 0, y := -1080 },
    isMaximized := some false, isFullScreen := some false }

/-- Window queries that all succeed except the final display lookup. -/
def failingLastQuery : WinQueries :=
  { getBounds := some { width := 300, height := 200, x := 10, y := 20 },
    isMaximized := some false, isMinimized := some false, isFullScreen := some false,
    matchingDisplayBounds := none }

/-- Window queries of a window destroyed before the call: every query
throws. -/
def destroyedQuery : WinQueries :=
  { getBounds := none, isMaximized := none, isMinimized := none, isFullScreen := none,
    matchingDisplayBounds := none }

/-- Window queries of a healthy maximized window. -/
def maximizedQuery : WinQueries :=
  { getBounds := some { width := 1920, height := 1080, x := 0, y := 0 },
    isMaximized := some true, isMinimized := some false, isFullScreen := some false,
    matchingDisplayBounds := some { width := 1920, height := 1080, x := 0, y := 0 } }

/-- Helper: when no display contains the window the reconciliation returns
exactly the default reset record. -/
theorem ensure_no_fit_eq_reset (config : Config) (displays : List Display)
(primaryBounds : DisplayBounds) (s : WinState)
    (h : ∀ d ∈ displays, windowWithinBounds s d.bounds = false) :
    ensureWindowVisibleOnSomeDisplay config displays primaryBounds s =
      resetStateToDefault config primaryBounds := by
  have hfind : displays.find? (fun v => windowWithinBounds s v.bounds) = none := by
    rw [List.find?_eq_none]
    intro d hd
    simp [h d hd]
  simp [ensureWindowVisibleOnSomeDisplay, hfind]

/-- Helper: the reset record has no x coordinate, so it fits within no
display bounds under the src/index.js containment check. -/
theorem windowWithinBounds_reset (config : Config) (primaryBounds : DisplayBounds)
    (bounds : DisplayBounds) :
    windowWithinBounds (resetStateToDefault config primaryBounds) bounds = false := rfl

/-- C3: windowWithinBounds (src/src/index.ts lines 151-164) is true exactly
when all four window edges lie within the given display rectangle, with an
unset x or y treated as 0 before the comparisons. -/
theorem windowWithinBoundsTs_iff (wb : WindowBounds) (bounds : DisplayBounds) :
    windowWithinBoundsTs wb bounds = true ↔
      (bounds.x ≤ wb.x.getD 0 ∧ bounds.y ≤ wb.y.getD 0 ∧
       wb.x.getD 0 + wb.width ≤ bounds.x + bounds.width ∧
       wb.y.getD 0 + wb.height ≤ bounds.y + bounds.height) := by
  simp [windowWithinBoundsTs, Bool.and_eq_true, decide_eq_true_iff, and_assoc]

/-- C9: hasBounds is true exactly when x, y, width and height are all
present and integral with width and height positive; a missing,
non-integral or non-positive field makes it false. -/
theorem hasBounds_iff (b : RawBounds) :
    hasBounds b = true ↔
      ((∃ v, b.x = some v ∧ v.den = 1) ∧ (∃ v, b.y = some v ∧ v.den = 1) ∧
       (∃ v, b.width = some v ∧ v.den = 1 ∧ 0 < v) ∧
       (∃ v, b.height = some v ∧ v.den = 1 ∧ 0 < v)) := by
  obtain ⟨x, y, w, h⟩ := b
  cases x <;> cases y <;> cases w <;> cases h <;>
    simp [hasBounds, isIntegerNum, Bool.and_eq_true, decide_eq_true_iff, and_assoc]

/-- C4: the change check is true exactly when nothing was loaded or some
field of the display bounds, window bounds or flags differs; comparing a
record with itself gives false, comparing with an absent record gives
true. -/
theorem checkUpdatedState_iff (a : WinState) (b : Option WinState) :
    (checkUpdatedStateCompareToReadedData a b = true ↔
      (b = none ∨ ∃ rd, b = some rd ∧
        (rd.displayBounds.x ≠ a.displayBounds.x ∨ rd.displayBounds.y ≠ a.displayBounds.y ∨
         rd.displayBounds.width ≠ a.displayBounds.width ∨
         rd.displayBounds.height ≠ a.displayBounds.height ∨
         rd.windowBounds.x ≠ a.windowBounds.x ∨ rd.windowBounds.y ≠ a.windowBounds.y ∨
         rd.windowBounds.width ≠ a.windowBounds.width ∨
         rd.windowBounds.height ≠ a.windowBounds.height ∨
         rd.isMaximized ≠ a.isMaximized ∨ rd.isFullScreen ≠ a.isFullScreen))) ∧
    checkUpdatedStateCompareToReadedData a (some a) = false ∧
    checkUpdatedStateCompareToReadedData a none = true := by
  refine ⟨?_, ?_, rfl⟩
  · cases b with
    | none => simp [checkUpdatedStateCompareToReadedData]
    | some rd =>
      simp [checkUpdatedStateCompareToReadedData, Bool.or_eq_true, bne_iff_ne, or_assoc]
  · simp [checkUpdatedStateCompareToReadedData]

/-- C10: the work-area clamp never grows the window: the resulting width
and height are at most the input width and height. -/
theorem resizeAndReplace_never_grows (display : Display) (s : WinState) :
    (resizeAndReplaceWindowForWorkArea display s).windowBounds.width ≤ s.windowBounds.width ∧
    (resizeAndReplaceWindowForWorkArea display s).windowBounds.height ≤ s.windowBounds.height := by
  unfold resizeAndReplaceWindowForWorkArea
  split
  · exact ⟨le_refl _, le_refl _⟩
  · constructor <;> dsimp only <;> split <;> omega

/-- C1 counterexample: a maximized, full-screen state that fits no display
is reset, but the reset record carries no isMaximized and no isFullScreen
field at all, so neither flag equals an explicit false. -/
theorem ensureWindowVisible_reset_flags_counterexample :
    windowWithinBounds farState displayOne.bounds = false ∧
    (ensureWindowVisibleOnSomeDisplay cfgOne [displayOne] displayOne.bounds
        farState).isMaximized ≠ some false ∧
    (ensureWindowVisibleOnSomeDisplay cfgOne [displayOne] displayOne.bounds
        farState).isFullScreen ≠ some false := by decide

/-- C1 amended: when no display bounds contain the window, reconciliation
returns the reset record: default width and height (800 and 600 when not
configured), unset x and y, the primary display bounds, and the two flags
dropped to unset rather than set to false. -/
theorem ensureWindowVisible_reset_of_no_fit (config : Config) (displays : List Display)
(primaryBounds : DisplayBounds) (s : WinState)
    (h : ∀ d ∈ displays, windowWithinBounds s d.bounds = false) :
    ensureWindowVisibleOnSomeDisplay config displays primaryBounds s =
      { windowBounds := { width := jsOrDefault config.defaultWidth 800,
                          height := jsOrDefault config.defaultHeight 600,
                          x := none, y := none },
        displayBounds := primaryBounds,
        isMaximized := none, isFullScreen := none } :=
  ensure_no_fit_eq_reset config displays primaryBounds s h

/-- C1 witness: the amended reset equation evaluated on the far-away state
and the single 1920 by 1080 display. -/
theorem ensureWindowVisible_reset_of_no_fit_witness :
    ensureWindowVisibleOnSomeDisplay cfgOne [displayOne] displayOne.bounds farState =
      { windowBounds := { width := 1000, height := 700, x := none, y := none },
        displayBounds := displayOne.bounds,
        isMaximized := none, isFullScreen := none } := by
  have h := ensureWindowVisible_reset_of_no_fit cfgOne [displayOne] displayOne.bounds
    farState (by decide)
  simpa [cfgOne, jsOrDefault, displayOne] using h

/-- C8 counterexample: reconciling midState against tallDisplay once moves
the window to y = 50 via the bottom snap; a second reconciliation then
fires the top snap and moves it to y = 0, so reconcile of reconcile differs
from reconcile. -/
theorem ensureWindowVisible_not_idempotent_counterexample :
    ensureWindowVisibleOnSomeDisplay cfgOne [tallDisplay] tallDisplay.bounds
        (ensureWindowVisibleOnSomeDisplay cfgOne [tallDisplay] tallDisplay.bounds midState) ≠
      ensureWindowVisibleOnSomeDisplay cfgOne [tallDisplay] tallDisplay.bounds midState := by
  decide

/-- C8 amended: reconciliation is idempotent on the reset branch: when no
display bounds contain the window, the reset record it produces fits no
display either (its position is unset), so a second reconciliation returns
it unchanged.  On the clamp branch idempotency can fail. -/
theorem ensureWindowVisible_idem_of_no_fit (config : Config) (displays : List Display)
(primaryBounds : DisplayBounds) (s : WinState)
    (h : ∀ d ∈ displays, windowWithinBounds s d.bounds = false) :
    ensureWindowVisibleOnSomeDisplay config displays primaryBounds
        (ensureWindowVisibleOnSomeDisplay config displays primaryBounds s) =
      ensureWindowVisibleOnSomeDisplay config displays primaryBounds s := by
  rw [ensure_no_fit_eq_reset config displays primaryBounds s h]
  exact ensure_no_fit_eq_reset config displays primaryBounds _
    (fun d _ => windowWithinBounds_reset config primaryBounds d.bounds)

/-- C8 witness: the idempotency equation evaluated on the far-away state
and the single 1920 by 1080 display. -/
theorem ensureWindowVisible_idem_of_no_fit_witness :
    ensureWindowVisibleOnSomeDisplay cfgOne [displayOne] displayOne.bounds
        (ensureWindowVisibleOnSomeDisplay cfgOne [displayOne] displayOne.bounds farState) =
      ensureWindowVisibleOnSomeDisplay cfgOne [displayOne] displayOne.bounds farState :=
  ensureWindowVisible_idem_of_no_fit cfgOne [displayOne] displayOne.bounds farState (by decide)

/-- C2 counterexample: on a display whose work area sits at y = -1080 the
bottom snap compares the window bottom against the work-area height instead
of the work-area bottom edge, so a normal window at the origin is left with
its bottom edge 600 below the work area bottom edge 0. -/
theorem resizeAndReplace_edges_counterexample :
    jsTruthy originState.isMaximized = false ∧
    jsTruthy originState.isFullScreen = false ∧
    (resizeAndReplaceWindowForWorkArea belowDisplay originState).windowBounds.y = some 0 ∧
    (resizeAndReplaceWindowForWorkArea belowDisplay originState).windowBounds.height = 600 ∧
    ¬ ((0 : Int) + 600 ≤ belowDisplay.workArea.y + belowDisplay.workArea.height) := by
  decide

/-- C2 amended: for a non-maximized, non-full-screen state, the clamp keeps
width and height at most the work-area width and height, and provided the
work-area origin is non-negative the right edge stays at most the work-area
right edge and the bottom edge at most the work-area bottom edge (an unset
coordinate counts as 0). -/
theorem resizeAndReplace_edges_within_workArea (display : Display) (s : WinState)
    (hfs : jsTruthy s.isFullScreen = false) (hmax : jsTruthy s.isMaximized = false)
    (hwx : 0 ≤ display.workArea.x) (hwy : 0 ≤ display.workArea.y) :
    (resizeAndReplaceWindowForWorkArea display s).windowBounds.width ≤
        display.workArea.width ∧
    (resizeAndReplaceWindowForWorkArea display s).windowBounds.height ≤
        display.workArea.height ∧
    (resizeAndReplaceWindowForWorkArea display s).windowBounds.x.getD 0 +
        (resizeAndReplaceWindowForWorkArea display s).windowBounds.width ≤
      display.workArea.x + display.workArea.width ∧
    (resizeAndReplaceWindowForWorkArea display s).windowBounds.y.getD 0 +
        (resizeAndReplaceWindowForWorkArea display s).windowBounds.height ≤
      display.workArea.y + display.workArea.height := by
  obtain ⟨⟨w, ht, xo, yo⟩, db, im, fs⟩ := s
  cases xo <;> cases yo <;>
    simp only [resizeAndReplaceWindowForWorkArea, hfs, hmax, Bool.or_self, Bool.false_eq_true,
      if_false, Option.getD_some, Option.getD_none] <;>
    refine ⟨?_, ?_, ?_, ?_⟩ <;> split_ifs <;> omega

/-- C2 witness: the width clamp conclusion evaluated for the origin window
on the taskbar-free 1920 by 1080 display. -/
theorem resizeAndReplace_edges_within_workArea_witness :
    (resizeAndReplaceWindowForWorkArea displayOne originState).windowBounds.width ≤
      displayOne.workArea.width :=
  (resizeAndReplace_edges_within_workArea displayOne originState
    (by decide) (by decide) (by decide) (by decide)).1

/-- C5 counterexample: with a live state that differs from the loaded
record, saveState writes, yet readedData still differs from the state it
just wrote, and an immediately repeated saveState with no intervening
change writes a second time. -/
theorem saveState_lastPersisted_counterexample :
    (saveState envAB).written.length = 1 ∧
    (saveState envAB).readedData ≠ some (saveState envAB).state ∧
    (saveState (saveState envAB)).written.length = 2 := by decide

/-- C5 amended: saveState writes the current state exactly when the change
check against the loaded record is true, and it never touches readedData or
the current state, so a repeated call keeps writing as long as the state
differs from the record loaded at construction. -/
theorem saveState_behavior (e : SaveEnv) :
    (saveState e).written =
      (if checkUpdatedStateCompareToReadedData e.state e.readedData
        then e.state :: e.written else e.written) ∧
    (saveState e).readedData = e.readedData ∧
    (saveState e).state = e.state := by
  unfold saveState
  split <;> simp_all

/-- C6 counterexample: every query succeeds except the final display
lookup, so updateState has already overwritten the window bounds when the
failure is caught: a failing query does not leave the state unchanged. -/
theorem updateState_partial_mutation_counterexample :
    failingLastQuery.matchingDisplayBounds = none ∧
    updateState failingLastQuery stateA ≠ stateA := by decide

/-- C6 amended: updateState is a no-op exactly up to the failing query:
when the bounds query or the normal-state queries fail, no mutation has
happened yet and the state is returned unchanged; a later failure keeps the
mutations already made. -/
theorem updateState_noop_of_early_failure (w : WinQueries) (s : WinState)
    (h : w.getBounds = none ∨ isNormalQ w = none) :
    updateState w s = s := by
  unfold updateState
  rcases h with h | h <;> rw [h]
  cases w.getBounds <;> rfl

/-- C6 witness: a window destroyed before the call fails its first query
and the state is untouched. -/
theorem updateState_noop_of_early_failure_witness :
    updateState destroyedQuery stateA = stateA :=
  updateState_noop_of_early_failure destroyedQuery stateA (Or.inl rfl)

/-- C7: a successful updateState on a window that is maximized, minimized
or full-screen keeps the stored window bounds and overwrites only the two
flags and the display bounds; on a normal window it overwrites the window
bounds as well. -/
theorem updateState_overwrite_policy (w : WinQueries) (s : WinState)
    (wb : DisplayBounds) (m mn f : Bool) (db : DisplayBounds)
    (hb : w.getBounds = some wb) (hm : w.isMaximized = some m)
    (hmn : w.isMinimized = some mn) (hf : w.isFullScreen = some f)
    (hd : w.matchingDisplayBounds = some db) :
    ((m || mn || f) = true →
      updateState w s =
        { s with isMaximized := some m, isFullScreen := some f, displayBounds := db }) ∧
    ((m || mn || f) = false →
      updateState w s =
        { windowBounds := { width := wb.width, height := wb.height,
                            x := some wb.x, y := some wb.y },
          displayBounds := db, isMaximized := some m, isFullScreen := some f }) := by
  have hn : isNormalQ w = some (!(m || mn || f)) := by
    unfold isNormalQ
    rw [hm]
    cases m
    · rw [hmn]
      cases mn
      · rw [hf]
        simp
      · simp
    · simp
  constructor <;> intro hc <;> unfold updateState <;> rw [hb, hn, hc, hm, hf, hd] <;> simp

/-- C7 witness: the policy evaluated on a healthy maximized window: the
stored window bounds survive, flags and display bounds are overwritten. -/
theorem updateState_overwrite_policy_witness :
    updateState maximizedQuery stateA =
      { stateA with
        isMaximized := some true
        isFullScreen := some false
        displayBounds := { width := 1920, height := 1080, x := 0, y := 0 } } :=
  (updateState_overwrite_policy maximizedQuery stateA
    { width := 1920, height := 1080, x := 0, y := 0 } true false false
    { width := 1920, height := 1080, x := 0, y := 0 } rfl rfl rfl rfl rfl).1 rfl
